import Mathlib

/-!
Verification development for the LBDesign beam calculation engine.

Shallow embedding of the calculation core:
  app/services/calculations/structural_mechanics.py  (class BeamFormulas)
  app/services/calculations/design_factors.py        (class DesignFactors)
  app/utils/section_properties.py                    (class SectionProperties)
  app/services/calculations/calculation_service.py   (class BeamCalculationService)
  app/routes/api/api_calculate_preview.py            (calculate_beam_preview)

Python floats are modelled as rationals (ℚ).  Every numeric value reached by
the theorems below is far from any representation boundary, so the binary
rounding of IEEE doubles is unobservable at these inputs.  Python's
`round(x, n)` (round-half-to-even on the scaled value) is modelled exactly by
`pyRound`.  `float('inf')` is modelled by a dedicated constructor of
`FloatVal`, with the comparison behaviour of IEEE infinity made explicit where
it is used.  Timestamps (`calc_date = datetime.utcnow()`) are outside the
embedding: the result record carries every other field of the Python result
dictionary.
-/

namespace LBDesign

/-- Calculation status strings "PASS" / "WARNING" / "FAIL" of the engine. -/
inductive Status where
  | PASS
  | WARNING
  | FAIL
deriving DecidableEq

/-- A Python float that is either an ordinary (finite) number, modelled as a
rational, or the value `float('inf')` that `utilization_ratio` returns for a
zero capacity. -/
inductive FloatVal where
  | fin (q : ℚ)
  | inf
deriving DecidableEq

/-- Python's builtin `round(x, n)`: round to `n` decimal digits, ties to the
even choice (banker's rounding), as the decimal value of the argument. -/
def pyRound (n : ℕ) (x : ℚ) : ℚ :=
  let y : ℚ := x * 10 ^ n
  let f : ℤ := ⌊y⌋
  let r : ℚ := y - f
  (if r < 1 / 2 then (f : ℚ)
   else if 1 / 2 < r then ((f + 1 : ℤ) : ℚ)
   else if f % 2 = 0 then (f : ℚ) else ((f + 1 : ℤ) : ℚ)) / 10 ^ n

/-- `round(x, n)` lifted to possibly-infinite floats: Python's
`round(float('inf'), n)` is `float('inf')`. -/
def FloatVal.roundTo (n : ℕ) : FloatVal → FloatVal
  | .fin q => .fin (pyRound n q)
  | .inf => .inf

/-- Python's binary `max` on floats that may be `inf`: `inf` dominates, and on
finite values it is the ordinary maximum. -/
def FloatVal.maxF : FloatVal → FloatVal → FloatVal
  | .inf, _ => .inf
  | .fin _, .inf => .inf
  | .fin x, .fin y => .fin (max x y)

/-- Python's `x or default` on an optional float: `None` and `0.0` are falsy
and select the default, everything else is returned unchanged. -/
def pyOr (x : Option ℚ) (dflt : ℚ) : ℚ :=
  match x with
  | none => dflt
  | some v => if v = 0 then dflt else v

/-- Python's truthiness of an optional float: `None` and `0.0` are falsy. -/
def pyTruthy (x : Option ℚ) : Bool :=
  match x with
  | none => false
  | some v => v != 0

/-- Python's `s.lower()` as a list of characters. -/
def lowerChars (s : String) : List Char :=
  s.data.map Char.toLower

/-- Whether the first list is a leading segment of the second. -/
def leadMatch : List Char → List Char → Bool
  | [], _ => true
  | _ :: _, [] => false
  | a :: as, b :: bs => a == b && leadMatch as bs

/-- Python's substring test `needle in haystack` on character lists. -/
def strContains (needle : List Char) : List Char → Bool
  | [] => leadMatch needle []
  | c :: t => leadMatch needle (c :: t) || strContains needle t

namespace BeamFormulas

/-- `BeamFormulas.moment_simple_udl(w, L)`: maximum bending moment of a simply
supported beam under a uniformly distributed load, `w*L**2 / 8`. -/
def moment_simple_udl (w L : ℚ) : ℚ :=
  (w * L ^ 2) / 8

/-- `BeamFormulas.moment_simple_point_offset(P, L, a)`: moment under a point
load at distance `a`, `P*a*b/L` with `b = L - a`. -/
def moment_simple_point_offset (P L a : ℚ) : ℚ :=
  let b := L - a
  (P * a * b) / L

/-- `BeamFormulas.moment_combined_udl_and_points(w, L, point_loads)`: the UDL
moment plus, when the point-load list is non-empty, Python's `max` of the
individual point-load moments (a left fold of binary max over the list). -/
def moment_combined_udl_and_points (w L : ℚ) (point_loads : List (ℚ × ℚ)) : ℚ :=
  let M_udl := moment_simple_udl w L
  match point_loads.map (fun pa => moment_simple_point_offset pa.1 L pa.2) with
  | [] => M_udl
  | m :: ms => M_udl + ms.foldl max m

/-- `BeamFormulas.shear_simple_udl(w, L)`: maximum shear `w*L / 2`. -/
def shear_simple_udl (w L : ℚ) : ℚ :=
  (w * L) / 2

/-- `BeamFormulas.shear_combined(w, L, point_loads)`: UDL shear plus the
accumulated point-load reactions, maximum of the two supports. -/
def shear_combined (w L : ℚ) (point_loads : List (ℚ × ℚ)) : ℚ :=
  let V_udl := shear_simple_udl w L
  let R_left := point_loads.foldl (fun acc pa => acc + pa.1 * (L - pa.2) / L) 0
  let R_right := point_loads.foldl (fun acc pa => acc + pa.1 * pa.2 / L) 0
  max (V_udl + R_left) (V_udl + R_right)

/-- `BeamFormulas.deflection_simple_udl(w, L, E, I)`: midspan deflection
`5*w*L**4 / (384*E*I)` after the source's unit conversions (`w` kN/m → N/mm is
the identity `w * 1000 / 1000`, `L` m → mm is `L * 1000`). -/
def deflection_simple_udl (w L E I : ℚ) : ℚ :=
  let w_N_mm := w * 1000 / 1000
  let L_mm := L * 1000
  (5 * w_N_mm * L_mm ^ 4) / (384 * E * I)

/-- `BeamFormulas.deflection_limit_span_ratio(L, ratio)`: `L*1000 / ratio`. -/
def deflection_limit_span_ratio (L ratio : ℚ) : ℚ :=
  let L_mm := L * 1000
  L_mm / ratio

/-- `BeamFormulas.utilization_ratio(demand, capacity)`: `demand / capacity`,
with `float('inf')` returned when the capacity is zero. -/
def utilization_ratio (demand capacity : ℚ) : FloatVal :=
  if capacity = 0 then .inf else .fin (demand / capacity)

/-- `BeamFormulas.check_status(utilization)`: "PASS" below 0.9, "WARNING"
below 1.0, otherwise "FAIL".  `float('inf')` compares `<` as false against
any finite bound, so the infinite value falls through to "FAIL". -/
def check_status : FloatVal → Status
  | .fin q => if q < 0.9 then .PASS else if q < 1.0 then .WARNING else .FAIL
  | .inf => .FAIL

end BeamFormulas

namespace DesignFactors

/-- `DesignFactors.PHI_BENDING` (NZS3603 Table 2.2). -/
def PHI_BENDING : ℚ := 0.90

/-- `DesignFactors.PHI_SHEAR`. -/
def PHI_SHEAR : ℚ := 0.90

/-- `DesignFactors.K1_PERMANENT`. -/
def K1_PERMANENT : ℚ := 0.57

/-- `DesignFactors.K1_LONG_TERM`. -/
def K1_LONG_TERM : ℚ := 0.57

/-- `DesignFactors.K1_MEDIUM_TERM`. -/
def K1_MEDIUM_TERM : ℚ := 0.80

/-- `DesignFactors.K1_SHORT_TERM`. -/
def K1_SHORT_TERM : ℚ := 1.00

/-- `DesignFactors.K1_VERY_SHORT`. -/
def K1_VERY_SHORT : ℚ := 1.15

/-- `DesignFactors.K4_DRY`. -/
def K4_DRY : ℚ := 1.00

/-- `DesignFactors.K4_WET`. -/
def K4_WET : ℚ := 0.80

/-- `DesignFactors.K6_NORMAL`. -/
def K6_NORMAL : ℚ := 1.00

/-- `DesignFactors.K6_HIGH`. -/
def K6_HIGH : ℚ := 0.85

/-- `DesignFactors.F_B_LVL`: placeholder LVL bending strength (MPa). -/
def F_B_LVL : ℚ := 48.0

/-- `DesignFactors.F_S_LVL`: placeholder LVL shear strength (MPa). -/
def F_S_LVL : ℚ := 5.5

/-- `DesignFactors.E_LVL`: placeholder LVL modulus of elasticity (MPa). -/
def E_LVL : ℚ := 13800.0

/-- `DesignFactors.DEFLECTION_LIMIT_FLOOR`: span/300 for floors. -/
def DEFLECTION_LIMIT_FLOOR : ℚ := 300

/-- `DesignFactors.DEFLECTION_LIMIT_ROOF`: span/250 for roofs. -/
def DEFLECTION_LIMIT_ROOF : ℚ := 250

/-- `DesignFactors.moment_capacity(Z, f_b, k1, k4, k6, phi)`:
`phi * (k1*k4*k6*f_b*Z) / 1_000_000` (Nmm → kNm). -/
def moment_capacity (Z f_b k1 k4 k6 phi : ℚ) : ℚ :=
  let M_n_Nmm := k1 * k4 * k6 * f_b * Z
  let phi_M_n_Nmm := phi * M_n_Nmm
  phi_M_n_Nmm / 1000000

/-- `DesignFactors.shear_capacity(A, f_s, k1, k4, k6, phi)`:
`phi * (k1*k4*k6*f_s*A) / 1000` (N → kN). -/
def shear_capacity (A f_s k1 k4 k6 phi : ℚ) : ℚ :=
  let V_n_N := k1 * k4 * k6 * f_s * A
  let phi_V_n_N := phi * V_n_N
  phi_V_n_N / 1000

/-- The dictionary returned by
`DesignFactors.get_section_properties_placeholder`. -/
structure SectionProps where
  area : ℚ
  I : ℚ
  Z : ℚ
  A_shear : ℚ
  depth : ℚ
  width : ℚ
deriving DecidableEq

/-- `DesignFactors.get_section_properties_placeholder(depth, width)`:
rectangular `A = width*depth`, `I = width*depth**3/12`, `Z = width*depth**2/6`,
`A_shear = (2/3)*A`. -/
def get_section_properties_placeholder (depth width : ℚ) : SectionProps :=
  let A := width * depth
  { area := A
    I := (width * depth ^ 3) / 12
    Z := (width * depth ^ 2) / 6
    A_shear := (2 / 3) * A
    depth := depth
    width := width }

/-- The dictionary of k-factors returned by
`DesignFactors.get_modification_factors`. -/
structure ModFactors where
  k1 : ℚ
  k4 : ℚ
  k6 : ℚ
deriving DecidableEq

/-- The `k1_map` dictionary inside `get_modification_factors`: lookup of the
load-duration class, `none` when the key is absent. -/
def k1_map (load_type : String) : Option ℚ :=
  if load_type = "permanent" then some K1_PERMANENT
  else if load_type = "long_term" then some K1_LONG_TERM
  else if load_type = "medium_term" then some K1_MEDIUM_TERM
  else if load_type = "short_term" then some K1_SHORT_TERM
  else if load_type = "very_short" then some K1_VERY_SHORT
  else none

/-- `DesignFactors.get_modification_factors(load_type, condition, temperature)`:
`k1` via `k1_map.get(load_type, K1_MEDIUM_TERM)`, `k4` is `K4_DRY` exactly when
`condition == 'dry'` (anything else gets `K4_WET`), `k6` is `K6_NORMAL` exactly
when `temperature == 'normal'` (anything else gets `K6_HIGH`). -/
def get_modification_factors (load_type condition temperature : String) : ModFactors :=
  { k1 := (k1_map load_type).getD K1_MEDIUM_TERM
    k4 := if condition = "dry" then K4_DRY else K4_WET
    k6 := if temperature = "normal" then K6_NORMAL else K6_HIGH }

end DesignFactors

namespace SectionProperties

/-- The dictionary returned by `SectionProperties.rectangular_section`
(each entry rounded to 2 decimal places as in the source). -/
structure RectProps where
  A_gross : ℚ
  A_shear : ℚ
  Ixx : ℚ
  Iyy : ℚ
  Zxx : ℚ
  Zyy : ℚ
deriving DecidableEq

/-- `SectionProperties.rectangular_section(depth, width)`. -/
def rectangular_section (depth width : ℚ) : RectProps :=
  let A_gross := width * depth
  let Ixx := (width * depth ^ 3) / 12
  let Iyy := (depth * width ^ 3) / 12
  let Zxx := (width * depth ^ 2) / 6
  let Zyy := (depth * width ^ 2) / 6
  let A_shear := (2 / 3) * A_gross
  { A_gross := pyRound 2 A_gross
    A_shear := pyRound 2 A_shear
    Ixx := pyRound 2 Ixx
    Iyy := pyRound 2 Iyy
    Zxx := pyRound 2 Zxx
    Zyy := pyRound 2 Zyy }

/-- Gross area of the I-beam of `SectionProperties.i_beam_section`:
`width_top*flange_thickness + width_bottom*flange_thickness
 + (depth - 2*flange_thickness)*web_thickness`. -/
def i_beam_A_gross (depth width_top width_bottom flange_thickness web_thickness : ℚ) : ℚ :=
  width_top * flange_thickness + width_bottom * flange_thickness +
    (depth - 2 * flange_thickness) * web_thickness

/-- Centroid `y_bar` of `i_beam_section`, measured from the bottom fiber:
area-weighted average of the three component centroids. -/
def i_beam_y_bar (depth width_top width_bottom flange_thickness web_thickness : ℚ) : ℚ :=
  let A_top_flange := width_top * flange_thickness
  let A_bottom_flange := width_bottom * flange_thickness
  let A_web := (depth - 2 * flange_thickness) * web_thickness
  let y_top_flange := depth - flange_thickness / 2
  let y_bottom_flange := flange_thickness / 2
  let y_web := depth / 2
  (A_top_flange * y_top_flange + A_bottom_flange * y_bottom_flange + A_web * y_web) /
    i_beam_A_gross depth width_top width_bottom flange_thickness web_thickness

/-- Strong-axis second moment `Ixx` of `i_beam_section`: own moments of the
three rectangles transferred to the centroid by the parallel-axis theorem. -/
def i_beam_Ixx (depth width_top width_bottom flange_thickness web_thickness : ℚ) : ℚ :=
  let y_bar := i_beam_y_bar depth width_top width_bottom flange_thickness web_thickness
  let web_height := depth - 2 * flange_thickness
  let A_top_flange := width_top * flange_thickness
  let A_bottom_flange := width_bottom * flange_thickness
  let A_web := web_height * web_thickness
  let I_top_flange := (width_top * flange_thickness ^ 3) / 12 +
    A_top_flange * (depth - flange_thickness / 2 - y_bar) ^ 2
  let I_bottom_flange := (width_bottom * flange_thickness ^ 3) / 12 +
    A_bottom_flange * (flange_thickness / 2 - y_bar) ^ 2
  let I_web := (web_thickness * web_height ^ 3) / 12 + A_web * (depth / 2 - y_bar) ^ 2
  I_top_flange + I_bottom_flange + I_web

/-- Top-fiber section modulus `Z_top = Ixx / c_top` of `i_beam_section`,
with `c_top = depth - y_bar`. -/
def i_beam_Z_top (depth width_top width_bottom flange_thickness web_thickness : ℚ) : ℚ :=
  i_beam_Ixx depth width_top width_bottom flange_thickness web_thickness /
    (depth - i_beam_y_bar depth width_top width_bottom flange_thickness web_thickness)

/-- Bottom-fiber section modulus `Z_bottom = Ixx / c_bottom` of
`i_beam_section`, with `c_bottom = y_bar`. -/
def i_beam_Z_bottom (depth width_top width_bottom flange_thickness web_thickness : ℚ) : ℚ :=
  i_beam_Ixx depth width_top width_bottom flange_thickness web_thickness /
    i_beam_y_bar depth width_top width_bottom flange_thickness web_thickness

/-- Governing strong-axis modulus of `i_beam_section`:
`Zxx = min(Z_top, Z_bottom)`. -/
def i_beam_Zxx (depth width_top width_bottom flange_thickness web_thickness : ℚ) : ℚ :=
  min (i_beam_Z_top depth width_top width_bottom flange_thickness web_thickness)
    (i_beam_Z_bottom depth width_top width_bottom flange_thickness web_thickness)

/-- The dictionary returned by `SectionProperties.i_beam_section`
(each entry rounded to 2 decimal places as in the source). -/
structure IBeamProps where
  A_gross : ℚ
  A_shear : ℚ
  Ixx : ℚ
  Iyy : ℚ
  Zxx : ℚ
  Zyy : ℚ
  y_bar : ℚ
deriving DecidableEq

/-- `SectionProperties.i_beam_section(depth, width_top, width_bottom,
flange_thickness, web_thickness)`. -/
def i_beam_section (depth width_top width_bottom flange_thickness web_thickness : ℚ) :
    IBeamProps :=
  let web_height := depth - 2 * flange_thickness
  let Iyy_top := (flange_thickness * width_top ^ 3) / 12
  let Iyy_bottom := (flange_thickness * width_bottom ^ 3) / 12
  let Iyy_web := (web_height * web_thickness ^ 3) / 12
  let Iyy := Iyy_top + Iyy_bottom + Iyy_web
  let Zyy_top := Iyy_top / (width_top / 2)
  let Zyy_bottom := Iyy_bottom / (width_bottom / 2)
  { A_gross := pyRound 2 (i_beam_A_gross depth width_top width_bottom flange_thickness
      web_thickness)
    A_shear := pyRound 2 (web_height * web_thickness)
    Ixx := pyRound 2 (i_beam_Ixx depth width_top width_bottom flange_thickness web_thickness)
    Iyy := pyRound 2 Iyy
    Zxx := pyRound 2 (i_beam_Zxx depth width_top width_bottom flange_thickness web_thickness)
    Zyy := pyRound 2 (min Zyy_top Zyy_bottom)
    y_bar := pyRound 2 (i_beam_y_bar depth width_top width_bottom flange_thickness
      web_thickness) }

/-- `SectionProperties.validate_rectangular(depth, width)`: the list of
messages appended by the three checks, in source order.  The depth-less-than-
width advisory is appended to the same `errors` list as the fatal checks. -/
def validate_rectangular (depth width : ℚ) : List String :=
  (if depth ≤ 0 then ["Depth must be positive"] else []) ++
  (if width ≤ 0 then ["Width must be positive"] else []) ++
  (if depth < width then
    ["Warning: Depth is less than width (unusual for strong axis bending)"] else [])

/-- `SectionProperties.validate_i_beam(depth, width_top, width_bottom,
flange_thickness, web_thickness)`: the list of messages appended by the seven
checks, in source order. -/
def validate_i_beam (depth width_top width_bottom flange_thickness web_thickness : ℚ) :
    List String :=
  (if depth ≤ 0 then ["Depth must be positive"] else []) ++
  (if width_top ≤ 0 then ["Top flange width must be positive"] else []) ++
  (if width_bottom ≤ 0 then ["Bottom flange width must be positive"] else []) ++
  (if flange_thickness ≤ 0 then ["Flange thickness must be positive"] else []) ++
  (if web_thickness ≤ 0 then ["Web thickness must be positive"] else []) ++
  (if 2 * flange_thickness ≥ depth then ["Flange thickness too large for overall depth"]
   else []) ++
  (if web_thickness > min width_top width_bottom then ["Web thickness exceeds flange width"]
   else [])

end SectionProperties

/-- `calculate_rectangular_properties(depth, width)`: `(None, errors)` when
validation returned any message (the advisory included), otherwise the
computed properties and an empty list. -/
def calculate_rectangular_properties (depth width : ℚ) :
    Option SectionProperties.RectProps × List String :=
  let errors := SectionProperties.validate_rectangular depth width
  if errors = [] then (some (SectionProperties.rectangular_section depth width), [])
  else (none, errors)

/-- `calculate_i_beam_properties(depth, width_top, width_bottom,
flange_thickness, web_thickness)`: `(None, errors)` when validation returned
any message, otherwise the computed properties and an empty list. -/
def calculate_i_beam_properties (depth width_top width_bottom flange_thickness
    web_thickness : ℚ) : Option SectionProperties.IBeamProps × List String :=
  let errors := SectionProperties.validate_i_beam depth width_top width_bottom
    flange_thickness web_thickness
  if errors = [] then
    (some (SectionProperties.i_beam_section depth width_top width_bottom flange_thickness
      web_thickness), [])
  else (none, errors)

/-- The fields of the `Beam` model read by
`BeamCalculationService.calculate_beam`.  Optional columns are `Option ℚ`
(`None` when unset). -/
structure Beam where
  member_type : String
  span : ℚ
  spacing : Option ℚ
  dead_load : Option ℚ
  live_load : Option ℚ
  point_load_1 : Option ℚ
  point_load_1_position : Option ℚ
  point_load_2 : Option ℚ
  point_load_2_position : Option ℚ

/-- The point-load list built by `calculate_beam`: a load is included only
when the magnitude and the position are both truthy (`if beam.point_load_1
and beam.point_load_1_position:`), so a `None` or `0.0` magnitude or position
silently drops the load. -/
def beamPointLoads (beam : Beam) : List (ℚ × ℚ) :=
  (if pyTruthy beam.point_load_1 && pyTruthy beam.point_load_1_position then
    [(beam.point_load_1.getD 0, beam.point_load_1_position.getD 0)] else []) ++
  (if pyTruthy beam.point_load_2 && pyTruthy beam.point_load_2_position then
    [(beam.point_load_2.getD 0, beam.point_load_2_position.getD 0)] else [])

/-- The deflection-limit ratio selection of `calculate_beam`: keyword match on
the lowercased member type, floors/joists and the default at span/300, rafters
and roofs at span/250. -/
def deflection_ratio_for (member_type : String) : ℚ :=
  if strContains "floor".data (lowerChars member_type) ||
      strContains "joist".data (lowerChars member_type) then
    DesignFactors.DEFLECTION_LIMIT_FLOOR
  else if strContains "rafter".data (lowerChars member_type) ||
      strContains "roof".data (lowerChars member_type) then
    DesignFactors.DEFLECTION_LIMIT_ROOF
  else DesignFactors.DEFLECTION_LIMIT_FLOOR

/-- The result dictionary of `calculate_beam` (everything except the
`calc_date` timestamp, which is wall-clock time). -/
structure CalcResults where
  demand_moment : ℚ
  demand_shear : ℚ
  demand_deflection : ℚ
  capacity_moment : ℚ
  capacity_shear : ℚ
  deflection_limit : ℚ
  utilization_moment : FloatVal
  utilization_shear : FloatVal
  utilization_deflection : FloatVal
  calc_status : Status
  calc_version : String
  section_depth : ℚ
  section_width : ℚ
  section_material : String
  E : ℚ
  f_b : ℚ
  f_s : ℚ
deriving DecidableEq

/-- The body of `BeamCalculationService.calculate_beam` after the point-load
list has been built (`beamPointLoads`): demands, placeholder section,
deflection (live load only; both branches of the source's `if point_loads:`
make the same call), capacities under medium-term/dry/normal factors,
utilization ratios and the worst-case status. -/
def calcFromLoads (member_type : String) (span : ℚ)
    (dead_load live_load spacing : Option ℚ) (point_loads : List (ℚ × ℚ))
    (section_properties : Option DesignFactors.SectionProps) : CalcResults :=
  let dead := pyOr dead_load 0
  let live := pyOr live_load 0
  let spac := pyOr spacing 1.0
  let w_dead := dead * spac
  let w_live := live * spac
  let w_total := w_dead + w_live
  let M_star := if point_loads = [] then BeamFormulas.moment_simple_udl w_total span
    else BeamFormulas.moment_combined_udl_and_points w_total span point_loads
  let V_star := if point_loads = [] then BeamFormulas.shear_simple_udl w_total span
    else BeamFormulas.shear_combined w_total span point_loads
  let sp := section_properties.getD (DesignFactors.get_section_properties_placeholder 300 45)
  let E := DesignFactors.E_LVL
  let f_b := DesignFactors.F_B_LVL
  let f_s := DesignFactors.F_S_LVL
  let delta_demand := BeamFormulas.deflection_simple_udl w_live span E sp.I
  let ratio := deflection_ratio_for member_type
  let delta_limit := BeamFormulas.deflection_limit_span_ratio span ratio
  let k_factors := DesignFactors.get_modification_factors "medium_term" "dry" "normal"
  let phi_M_n := DesignFactors.moment_capacity sp.Z f_b k_factors.k1 k_factors.k4
    k_factors.k6 DesignFactors.PHI_BENDING
  let phi_V_n := DesignFactors.shear_capacity sp.A_shear f_s k_factors.k1 k_factors.k4
    k_factors.k6 DesignFactors.PHI_SHEAR
  let util_moment := BeamFormulas.utilization_ratio M_star phi_M_n
  let util_shear := BeamFormulas.utilization_ratio V_star phi_V_n
  let util_deflection := BeamFormulas.utilization_ratio delta_demand delta_limit
  let max_util := FloatVal.maxF (FloatVal.maxF util_moment util_shear) util_deflection
  let status := BeamFormulas.check_status max_util
  { demand_moment := pyRound 2 M_star
    demand_shear := pyRound 2 V_star
    demand_deflection := pyRound 2 delta_demand
    capacity_moment := pyRound 2 phi_M_n
    capacity_shear := pyRound 2 phi_V_n
    deflection_limit := pyRound 2 delta_limit
    utilization_moment := util_moment.roundTo 3
    utilization_shear := util_shear.roundTo 3
    utilization_deflection := util_deflection.roundTo 3
    calc_status := status
    calc_version := "1.0.0"
    section_depth := sp.depth
    section_width := sp.width
    section_material := "LVL (placeholder)"
    E := E
    f_b := f_b
    f_s := f_s }

/-- `BeamCalculationService.calculate_beam(beam, section_properties)`. -/
def calculateBeam (beam : Beam)
    (section_properties : Option DesignFactors.SectionProps) : CalcResults :=
  calcFromLoads beam.member_type beam.span beam.dead_load beam.live_load beam.spacing
    (beamPointLoads beam) section_properties

/-- The demand-dispatch section of `calculate_beam_preview` in
`api_calculate_preview.py`, as that section is written — NOT as it executes:
the function raises before this section on every call (see
`calculate_beam_preview` below), so this text is unreachable at runtime.  As
written: with exactly 2 supports the simply supported path (whose point-load
arm calls `BeamFormulas.moment_point_offset` and
`BeamFormulas.shear_point_load`, names that do not exist on `BeamFormulas`, so
that arm would raise and is modelled `none`); with more than 2 supports the
continuous-beam approximation `M = moment_simple_udl * 0.8` with unmodified
shear; otherwise the error dictionary (modelled `none`). -/
def preview_demands (udl span : ℚ) (point_loads : List (ℚ × ℚ))
    (supports : List (ℚ × String)) : Option (ℚ × ℚ) :=
  let num_supports := supports.length
  if num_supports = 2 then
    if point_loads = [] then
      some (BeamFormulas.moment_simple_udl udl span, BeamFormulas.shear_simple_udl udl span)
    else none
  else if num_supports > 2 then
    some (BeamFormulas.moment_simple_udl udl span * 0.8,
      BeamFormulas.shear_simple_udl udl span)
  else none

/-- `calculate_beam_preview(params)` as it actually executes: its first
statement is `from app.services.calculations.design_factors import NZS3603`,
and `design_factors.py` defines no name `NZS3603` (only `DesignFactors`), so
every call raises ImportError before the support-count dispatch and before any
demand is computed.  The result is the unconditional error, for every input;
the dispatch text that would follow is `preview_demands`. -/
def calculate_beam_preview (_udl _span : ℚ) (_point_loads : List (ℚ × ℚ))
    (_supports : List (ℚ × String)) : Except String (ℚ × ℚ) :=
  .error "ImportError: cannot import name NZS3603 from design_factors"


/-! ## Helper lemmas shared by the claim theorems -/

/-- Evaluation of the factor lookup at the defaults the orchestrator passes. -/
lemma mod_factors_default :
    DesignFactors.get_modification_factors "medium_term" "dry" "normal" =
      ⟨DesignFactors.K1_MEDIUM_TERM, DesignFactors.K4_DRY, DesignFactors.K6_NORMAL⟩ := rfl

/-- Member type "beam" matches no keyword, so the default span/300 applies. -/
lemma ratio_beam : deflection_ratio_for "beam" = 300 := by decide

/-- A left fold of binary max can be peeled off its seed. -/
lemma foldl_max_peel (ms : List ℚ) : ∀ m c : ℚ,
    ms.foldl max (max m c) = max m (ms.foldl max c) := by
  induction ms with
  | nil => intro m c; rfl
  | cons b bs ih =>
    intro m c
    simp only [List.foldl_cons]
    rw [max_assoc, ih]

/-- Python's `max` over a non-empty list (a left fold of binary max) is
`List.maximum`. -/
lemma foldl_max_eq_maximum (ms : List ℚ) : ∀ m : ℚ,
    (m :: ms).maximum = ((ms.foldl max m : ℚ) : WithBot ℚ) := by
  induction ms with
  | nil => intro m; simp [List.maximum_cons]
  | cons a as ih =>
    intro m
    rw [List.maximum_cons, ih a, List.foldl_cons, foldl_max_peel]
    rw [← WithBot.coe_sup]

/-! ## Claim theorems -/

/-- Claim C2, counterexample: the unrecognized moisture condition "damp" is
resolved silently to the wet factor `k4 = 0.80`, not to the documented dry
default `k4 = 1.00` (and not rejected): the factor set differs from the
claimed medium-term/dry/normal defaults in its `k4` component. -/
theorem claim_C2_counterexample :
    DesignFactors.get_modification_factors "medium_term" "damp" "normal" =
      ⟨0.80, 0.80, 1.00⟩ ∧
    ((⟨0.80, 0.80, 1.00⟩ : DesignFactors.ModFactors).k4 ≠ 1.00) := by
  constructor
  · rfl
  · norm_num

/-- Claim C2, amended: an unrecognized load-duration class falls back to the
documented medium-term default `k1 = 0.80`, but an unrecognized moisture
condition silently resolves to the wet factor `k4 = 0.80` and an unrecognized
temperature class silently resolves to the high-temperature factor
`k6 = 0.85`, not to the dry/normal defaults. -/
theorem claim_C2_unrecognized_factors (load_type condition temperature : String) :
    (DesignFactors.k1_map load_type = none →
      (DesignFactors.get_modification_factors load_type condition temperature).k1 = 0.80) ∧
    (condition ≠ "dry" →
      (DesignFactors.get_modification_factors load_type condition temperature).k4 = 0.80) ∧
    (temperature ≠ "normal" →
      (DesignFactors.get_modification_factors load_type condition temperature).k6 = 0.85) := by
  refine ⟨fun h => ?_, fun h => ?_, fun h => ?_⟩
  · simp [DesignFactors.get_modification_factors, h, DesignFactors.K1_MEDIUM_TERM]
  · simp [DesignFactors.get_modification_factors, h, DesignFactors.K4_WET]
  · simp [DesignFactors.get_modification_factors, h, DesignFactors.K6_HIGH]

/-- Claim C2, witness: all three categories unrecognized at once. -/
theorem claim_C2_witness :
    (DesignFactors.get_modification_factors "snow" "damp" "hot").k1 = 0.80 ∧
    (DesignFactors.get_modification_factors "snow" "damp" "hot").k4 = 0.80 ∧
    (DesignFactors.get_modification_factors "snow" "damp" "hot").k6 = 0.85 :=
  ⟨(claim_C2_unrecognized_factors "snow" "damp" "hot").1 (by simp [DesignFactors.k1_map]),
   (claim_C2_unrecognized_factors "snow" "damp" "hot").2.1 (by simp),
   (claim_C2_unrecognized_factors "snow" "damp" "hot").2.2 (by simp)⟩

/-- Claim C3: at depth 100 < width 200 (both positive) the depth-less-than-
width advisory lands in the same `errors` list as the fatal checks, so
`calculate_rectangular_properties` aborts and returns no properties at all —
the advisory is fatal in the code, while the spec calls it non-fatal. -/
theorem claim_C3_advisory_is_fatal :
    calculate_rectangular_properties 100 200 =
      (none, ["Warning: Depth is less than width (unusual for strong axis bending)"]) := by
  norm_num [calculate_rectangular_properties, SectionProperties.validate_rectangular]

/-- The dispatch text, had it been reachable, selects the continuous-beam
approximation for more than 2 supports: the simply supported UDL moment times
0.8 and the unmodified simply supported shear. -/
lemma preview_dispatch_continuous (udl span : ℚ) (point_loads : List (ℚ × ℚ))
    (supports : List (ℚ × String)) (h : 2 < supports.length) :
    preview_demands udl span point_loads supports =
      some (udl * span ^ 2 / 8 * 0.8, udl * span / 2) := by
  unfold preview_demands
  rw [if_neg (by omega), if_pos (by omega)]
  simp [BeamFormulas.moment_simple_udl, BeamFormulas.shear_simple_udl]

/-- Claim C4: the >2-supports continuous-beam approximation (0.8 times the
simply supported UDL moment, shear unmodified) is exactly what the dispatch
section of `calculate_beam_preview` is written to select — here at three
pinned supports with 5 kN/m over 6 m it would give 0.8 x 22.5 = 18 kNm and
15 kN — but the executing function never reaches that section: every call
raises ImportError on the nonexistent `NZS3603` import first, so the engine
never computes these demands for any input. -/
theorem claim_C4_preview_import_error :
    calculate_beam_preview 5 6 [] [((0 : ℚ), "pinned"), (3, "pinned"), (6, "pinned")] =
      .error "ImportError: cannot import name NZS3603 from design_factors" ∧
    preview_demands 5 6 [] [((0 : ℚ), "pinned"), (3, "pinned"), (6, "pinned")] =
      some (18, 15) := by
  refine ⟨rfl, ?_⟩
  rw [preview_dispatch_continuous 5 6 [] _ (by norm_num)]
  norm_num

/-- Claim C5: `check_status` returns PASS below utilization 0.9, WARNING on
[0.9, 1.0), FAIL from 1.0 up, with the claimed boundary values 0.8999 PASS,
0.90 WARNING, 0.9999 WARNING and 1.00 FAIL. -/
theorem claim_C5_classify_status :
    BeamFormulas.check_status (.fin (8999 / 10000)) = .PASS ∧
    BeamFormulas.check_status (.fin (9 / 10)) = .WARNING ∧
    BeamFormulas.check_status (.fin (9999 / 10000)) = .WARNING ∧
    BeamFormulas.check_status (.fin 1) = .FAIL ∧
    ∀ u : ℚ, (u < 9 / 10 → BeamFormulas.check_status (.fin u) = .PASS) ∧
      (9 / 10 ≤ u → u < 1 → BeamFormulas.check_status (.fin u) = .WARNING) ∧
      (1 ≤ u → BeamFormulas.check_status (.fin u) = .FAIL) := by
  have e1 : (0.9 : ℚ) = 9 / 10 := by norm_num
  have e2 : (1.0 : ℚ) = 1 := by norm_num
  refine ⟨by norm_num [BeamFormulas.check_status], by norm_num [BeamFormulas.check_status],
    by norm_num [BeamFormulas.check_status], by norm_num [BeamFormulas.check_status],
    fun u => ?_⟩
  simp only [BeamFormulas.check_status, e1, e2]
  refine ⟨fun h => by rw [if_pos h], fun h1 h2 => ?_, fun h => ?_⟩
  · rw [if_neg (not_lt.mpr h1), if_pos h2]
  · rw [if_neg (not_lt.mpr (by linarith)), if_neg (not_lt.mpr h)]

/-- Claim C5, witness: one utilization in each band. -/
theorem claim_C5_witness :
    BeamFormulas.check_status (.fin (1 / 2)) = .PASS ∧
    BeamFormulas.check_status (.fin (95 / 100)) = .WARNING ∧
    BeamFormulas.check_status (.fin 2) = .FAIL :=
  ⟨(claim_C5_classify_status.2.2.2.2 (1 / 2)).1 (by norm_num),
   (claim_C5_classify_status.2.2.2.2 (95 / 100)).2.1 (by norm_num) (by norm_num),
   (claim_C5_classify_status.2.2.2.2 2).2.2 (by norm_num)⟩

/-- Claim C6: `utilization_ratio` never divides by a zero capacity — it
returns the infinite sentinel for capacity 0 and the plain quotient otherwise
— and `check_status` maps the sentinel to FAIL for every finite demand. -/
theorem claim_C6_utilization_no_fault (demand capacity : ℚ) :
    (capacity = 0 → BeamFormulas.utilization_ratio demand capacity = .inf) ∧
    (capacity ≠ 0 →
      BeamFormulas.utilization_ratio demand capacity = .fin (demand / capacity)) ∧
    (∀ x : ℚ, 0 ≤ x →
      BeamFormulas.check_status (BeamFormulas.utilization_ratio x 0) = .FAIL) := by
  refine ⟨fun h => by simp [BeamFormulas.utilization_ratio, h],
    fun h => by simp [BeamFormulas.utilization_ratio, h],
    fun x _ => by simp [BeamFormulas.utilization_ratio, BeamFormulas.check_status]⟩

/-- Claim C6, witness: zero capacity yields the sentinel and FAIL, a nonzero
capacity yields the quotient. -/
theorem claim_C6_witness :
    BeamFormulas.utilization_ratio 5 0 = .inf ∧
    BeamFormulas.utilization_ratio 6 3 = .fin (6 / 3) ∧
    BeamFormulas.check_status (BeamFormulas.utilization_ratio 7 0) = .FAIL :=
  ⟨(claim_C6_utilization_no_fault 5 0).1 rfl,
   (claim_C6_utilization_no_fault 6 3).2.1 (by norm_num),
   (claim_C6_utilization_no_fault 6 3).2.2 7 (by norm_num)⟩

/-- Membership in a conditionally produced singleton message list. -/
lemma mem_guard {c : Prop} [Decidable c] (s t : String) :
    (t ∈ if c then [s] else []) ↔ c ∧ t = s := by
  split_ifs with hc <;> simp [hc]

/-- A conditionally produced singleton message list is empty exactly when the
condition fails. -/
lemma guard_eq_nil {c : Prop} [Decidable c] (s : String) :
    ((if c then [s] else []) = ([] : List String)) ↔ ¬c := by
  split_ifs with hc <;> simp [hc]

/-- Claim C1, counterexample: a beam matching the claimed scenario (span 6 m,
total UDL 5 kN/m at spacing 1.0, no point loads, placeholder section and
default factors) with the whole 5 kN/m entered as live load: the moment demand
is the claimed 22.5 kNm, but the live-load-only deflection check reaches
utilization 3.019, so `calc_status` is FAIL, not the claimed WARNING. -/
theorem claim_C1_counterexample :
    (calculateBeam ⟨"beam", 6, some 1, none, some 5, none, none, none, none⟩
      none).demand_moment = 45 / 2 ∧
    (calculateBeam ⟨"beam", 6, some 1, none, some 5, none, none, none, none⟩
      none).utilization_deflection = .fin (3019 / 1000) ∧
    (calculateBeam ⟨"beam", 6, some 1, none, some 5, none, none, none, none⟩
      none).calc_status = .FAIL ∧
    Status.FAIL ≠ Status.WARNING := by
  refine ⟨?_, ?_, ?_, by simp⟩ <;>
  norm_num [calculateBeam, calcFromLoads, beamPointLoads, pyTruthy, pyOr,
    mod_factors_default, ratio_beam,
    BeamFormulas.moment_simple_udl, BeamFormulas.shear_simple_udl,
    BeamFormulas.deflection_simple_udl, BeamFormulas.deflection_limit_span_ratio,
    BeamFormulas.utilization_ratio, BeamFormulas.check_status,
    DesignFactors.moment_capacity, DesignFactors.shear_capacity,
    DesignFactors.get_section_properties_placeholder,
    DesignFactors.K1_MEDIUM_TERM, DesignFactors.K4_DRY, DesignFactors.K6_NORMAL,
    DesignFactors.PHI_BENDING, DesignFactors.PHI_SHEAR,
    DesignFactors.F_B_LVL, DesignFactors.F_S_LVL, DesignFactors.E_LVL,
    FloatVal.maxF, FloatVal.roundTo, pyRound]

/-- Claim C1, amended: the certification case with the 5 kN/m carried as dead
load (deflection is checked against live load only): `calculate_beam` returns
demand_moment 22.5 kNm, capacity_moment 23.33 kNm
(0.90*0.80*1.00*1.00*48*675000/1e6 = 23.328 rounded to 2 dp),
stored utilization_moment 0.965 (unrounded 625/648, approximately 0.9645),
and overall calc_status WARNING. -/
theorem claim_C1_end_to_end :
    (calculateBeam ⟨"beam", 6, some 1, some 5, some 0, none, none, none, none⟩
      none).demand_moment = 45 / 2 ∧
    (calculateBeam ⟨"beam", 6, some 1, some 5, some 0, none, none, none, none⟩
      none).capacity_moment = 2333 / 100 ∧
    (calculateBeam ⟨"beam", 6, some 1, some 5, some 0, none, none, none, none⟩
      none).utilization_moment = .fin (965 / 1000) ∧
    (calculateBeam ⟨"beam", 6, some 1, some 5, some 0, none, none, none, none⟩
      none).calc_status = .WARNING := by
  refine ⟨?_, ?_, ?_, ?_⟩ <;>
  norm_num [calculateBeam, calcFromLoads, beamPointLoads, pyTruthy, pyOr,
    mod_factors_default, ratio_beam,
    BeamFormulas.moment_simple_udl, BeamFormulas.shear_simple_udl,
    BeamFormulas.deflection_simple_udl, BeamFormulas.deflection_limit_span_ratio,
    BeamFormulas.utilization_ratio, BeamFormulas.check_status,
    DesignFactors.moment_capacity, DesignFactors.shear_capacity,
    DesignFactors.get_section_properties_placeholder,
    DesignFactors.K1_MEDIUM_TERM, DesignFactors.K4_DRY, DesignFactors.K6_NORMAL,
    DesignFactors.PHI_BENDING, DesignFactors.PHI_SHEAR,
    DesignFactors.F_B_LVL, DesignFactors.F_S_LVL, DesignFactors.E_LVL,
    FloatVal.maxF, FloatVal.roundTo, pyRound]

/-- Claim C7: whenever any I-beam constraint is violated,
`calculate_i_beam_properties` returns no properties (`none`) together with the
validation list, and that list contains the message of each violated
constraint — each of the seven messages is present exactly when its constraint
is violated. -/
theorem claim_C7_i_beam_validation (depth width_top width_bottom flange_thickness
    web_thickness : ℚ)
    (h : SectionProperties.validate_i_beam depth width_top width_bottom flange_thickness
      web_thickness ≠ []) :
    calculate_i_beam_properties depth width_top width_bottom flange_thickness
      web_thickness =
      (none, SectionProperties.validate_i_beam depth width_top width_bottom
        flange_thickness web_thickness) ∧
    (depth ≤ 0 ↔ "Depth must be positive" ∈ SectionProperties.validate_i_beam depth
      width_top width_bottom flange_thickness web_thickness) ∧
    (width_top ≤ 0 ↔ "Top flange width must be positive" ∈
      SectionProperties.validate_i_beam depth width_top width_bottom flange_thickness
        web_thickness) ∧
    (width_bottom ≤ 0 ↔ "Bottom flange width must be positive" ∈
      SectionProperties.validate_i_beam depth width_top width_bottom flange_thickness
        web_thickness) ∧
    (flange_thickness ≤ 0 ↔ "Flange thickness must be positive" ∈
      SectionProperties.validate_i_beam depth width_top width_bottom flange_thickness
        web_thickness) ∧
    (web_thickness ≤ 0 ↔ "Web thickness must be positive" ∈
      SectionProperties.validate_i_beam depth width_top width_bottom flange_thickness
        web_thickness) ∧
    (2 * flange_thickness ≥ depth ↔ "Flange thickness too large for overall depth" ∈
      SectionProperties.validate_i_beam depth width_top width_bottom flange_thickness
        web_thickness) ∧
    (web_thickness > min width_top width_bottom ↔ "Web thickness exceeds flange width" ∈
      SectionProperties.validate_i_beam depth width_top width_bottom flange_thickness
        web_thickness) := by
  refine ⟨by unfold calculate_i_beam_properties; rw [if_neg h], ?_, ?_, ?_, ?_, ?_, ?_, ?_⟩ <;>
    simp [SectionProperties.validate_i_beam, List.mem_append, mem_guard]

/-- Claim C7, witness: the claimed input 300/63/63/200/11 violates the flange
proportion constraint, so validation is non-empty and no properties are
returned. -/
theorem claim_C7_witness :
    calculate_i_beam_properties 300 63 63 200 11 =
      (none, SectionProperties.validate_i_beam 300 63 63 200 11) ∧
    ((2 : ℚ) * 200 ≥ 300 ↔ "Flange thickness too large for overall depth" ∈
      SectionProperties.validate_i_beam 300 63 63 200 11) := by
  have h : SectionProperties.validate_i_beam 300 63 63 200 11 ≠ [] := by
    norm_num [SectionProperties.validate_i_beam]
  exact ⟨(claim_C7_i_beam_validation 300 63 63 200 11 h).1,
    (claim_C7_i_beam_validation 300 63 63 200 11 h).2.2.2.2.2.2.1⟩

/-- Claim C8: `moment_combined_udl_and_points` is the UDL moment `w*L^2/8`
plus the maximum over the point loads of `P_i*a_i*(L-a_i)/L`, where the
maximum of the empty list contributes nothing. -/
theorem claim_C8_moment_combined (w L : ℚ) (point_loads : List (ℚ × ℚ)) :
    BeamFormulas.moment_combined_udl_and_points w L point_loads =
      w * L ^ 2 / 8 +
        ((point_loads.map fun pa => pa.1 * pa.2 * (L - pa.2) / L).maximum).unbot' 0 := by
  cases point_loads with
  | nil =>
    simp [BeamFormulas.moment_combined_udl_and_points, BeamFormulas.moment_simple_udl,
      List.maximum_nil]
  | cons p ps =>
    unfold BeamFormulas.moment_combined_udl_and_points
    simp only [List.map_cons, foldl_max_eq_maximum, WithBot.unbot'_coe]
    simp [BeamFormulas.moment_simple_udl, BeamFormulas.moment_simple_point_offset]

/-- Claim C9: a first point load whose position is 0 (falsy in Python) is
silently dropped by the orchestrator, so with no second point load the result
equals that of the same beam with no point loads at all — the pure-UDL path. -/
theorem claim_C9_zero_position_ignored (member_type : String) (span : ℚ)
    (spacing dead_load live_load : Option ℚ) (P : ℚ) :
    calculateBeam ⟨member_type, span, spacing, dead_load, live_load,
      some P, some 0, none, none⟩ none =
    calculateBeam ⟨member_type, span, spacing, dead_load, live_load,
      none, none, none, none⟩ none := by
  unfold calculateBeam
  simp [beamPointLoads, pyTruthy]

/-- Claim C10: for a valid I-beam with equal flange widths the centroid sits
at mid-depth, the two extreme-fiber section moduli agree, and the governing
modulus is `Ixx / (depth/2)`. -/
theorem claim_C10_symmetric_i_beam (depth b flange_thickness web_thickness : ℚ)
    (h : SectionProperties.validate_i_beam depth b b flange_thickness web_thickness = []) :
    SectionProperties.i_beam_y_bar depth b b flange_thickness web_thickness = depth / 2 ∧
    SectionProperties.i_beam_Z_top depth b b flange_thickness web_thickness =
      SectionProperties.i_beam_Z_bottom depth b b flange_thickness web_thickness ∧
    SectionProperties.i_beam_Zxx depth b b flange_thickness web_thickness =
      SectionProperties.i_beam_Ixx depth b b flange_thickness web_thickness /
        (depth / 2) := by
  simp only [SectionProperties.validate_i_beam, List.append_eq_nil, guard_eq_nil] at h
  push_neg at h
  obtain ⟨⟨⟨⟨⟨⟨hd, hb⟩, -⟩, hft⟩, hw⟩, hflange⟩, -⟩ := h
  have hA : SectionProperties.i_beam_A_gross depth b b flange_thickness web_thickness ≠ 0 := by
    unfold SectionProperties.i_beam_A_gross
    have h1 : 0 < b * flange_thickness := mul_pos hb hft
    have h2 : 0 < (depth - 2 * flange_thickness) * web_thickness :=
      mul_pos (by linarith) hw
    exact ne_of_gt (by linarith)
  have hy : SectionProperties.i_beam_y_bar depth b b flange_thickness web_thickness =
      depth / 2 := by
    unfold SectionProperties.i_beam_y_bar
    rw [div_eq_div_iff hA two_ne_zero]
    unfold SectionProperties.i_beam_A_gross
    ring
  have hd2 : depth - depth / 2 = depth / 2 := by ring
  refine ⟨hy, ?_, ?_⟩
  · unfold SectionProperties.i_beam_Z_top SectionProperties.i_beam_Z_bottom
    rw [hy, hd2]
  · unfold SectionProperties.i_beam_Zxx SectionProperties.i_beam_Z_top
      SectionProperties.i_beam_Z_bottom
    rw [hy, hd2, min_self]

/-- Claim C10, witness: the valid symmetric I-beam 300/63/63/11/8 has its
centroid at 150 mm and `Zxx = Ixx / 150`. -/
theorem claim_C10_witness :
    SectionProperties.validate_i_beam 300 63 63 11 8 = [] ∧
    SectionProperties.i_beam_y_bar 300 63 63 11 8 = 150 ∧
    SectionProperties.i_beam_Zxx 300 63 63 11 8 =
      SectionProperties.i_beam_Ixx 300 63 63 11 8 / 150 := by
  have hv : SectionProperties.validate_i_beam 300 63 63 11 8 = [] := by
    norm_num [SectionProperties.validate_i_beam]
  have h := claim_C10_symmetric_i_beam 300 63 11 8 hv
  refine ⟨hv, ?_, ?_⟩
  · rw [h.1]; norm_num
  · rw [h.2.2]; norm_num

end LBDesign
